import Mathlib

/-!
Shallow embedding of the feedback-hub ingestion endpoint
(`supabase/functions/feedbacks/index.ts`), of the SQL credential-resolution
function `get_user_id_from_api_key`, and of the key-regeneration flow in
`src/pages/Settings.tsx`.

JavaScript runtime values that can appear in a parsed JSON request body are
modelled by `JSVal`.  Objects are modelled as flat string-to-string maps (the
shape the API documents for `metadata`); they are assumed not to carry a
special `length` member, and arrays are abstracted to their element count,
since the handler only ever consults truthiness, `.length` and `.trim()` of
body fields.  String `.length` is modelled as character count (all inputs of
interest are ASCII) and `.trim()` removes the ASCII whitespace characters.
A JavaScript statement that throws is modelled by `Option`/explicit error
results; the `try`/`catch` of the handler turns any throw into the generic
500 response.
-/

/-- A JavaScript value occurring in a parsed JSON body. -/
inductive JSVal where
  | undefined
  | nullv
  | boolv (b : Bool)
  | num (n : Int)
  | str (s : String)
  | arr (len : Nat)
  | obj (fields : List (String × String))
deriving DecidableEq, Repr

/-- JavaScript truthiness of a value (`!v` in the source is `!truthy v`). -/
def truthy : JSVal → Bool
  | .undefined => false
  | .nullv => false
  | .boolv b => b
  | .num n => n != 0
  | .str s => s != ""
  | .arr _ => true
  | .obj _ => true

/-- `v.length` in JavaScript: defined for strings and arrays, `undefined`
(modelled as `none`) otherwise. -/
def jsLength : JSVal → Option Nat
  | .str s => some s.length
  | .arr n => some n
  | _ => none

/-- `v.length > limit` in JavaScript: `undefined > limit` is `false`. -/
def lengthGT (v : JSVal) (limit : Nat) : Bool :=
  match jsLength v with
  | some n => decide (limit < n)
  | none => false

/-- Whether a value is a JavaScript string. -/
def jsIsString : JSVal → Bool
  | .str _ => true
  | _ => false

/-- ASCII whitespace recognised by the trim model. -/
def jsWhitespace (c : Char) : Bool :=
  c == ' ' || c == '\t' || c == '\n' || c == '\r'

/-- Remove leading and trailing whitespace from a character list. -/
def trimChars (l : List Char) : List Char :=
  ((l.dropWhile jsWhitespace).reverse.dropWhile jsWhitespace).reverse

/-- `s.trim()` on a JavaScript string. -/
def strTrim (s : String) : String := ⟨trimChars s.data⟩

/-- `v.trim()` on an arbitrary value: succeeds only on strings; on every
other value the method is `undefined` and the call throws (`none`). -/
def jsTrim : JSVal → Option String
  | .str s => some (strTrim s)
  | _ => none

/-- `list.includes(v)` for a list of strings: SameValueZero equality, so a
non-string value never matches. -/
def jsIncludes (l : List String) (v : JSVal) : Bool :=
  match v with
  | .str s => l.contains s
  | _ => false

/-- `v || fallback` in JavaScript. -/
def jsOr (v fallback : JSVal) : JSVal := if truthy v then v else fallback

/-- `s.startsWith(p)` on JavaScript strings. -/
def jsStartsWith (s p : String) : Bool := p.data.isPrefixOf s.data

/-- Drop the first `n` characters of a string.  The source extracts the
token with `replace`, which removes only the first occurrence of the
pattern `Bearer ` (7 characters); on a header that starts with that
pattern this equals `strDrop h 7`. -/
def strDrop (s : String) (n : Nat) : String := ⟨s.data.drop n⟩

/-- One row of the `api_keys` table. -/
structure ApiKey where
  id : Nat
  user_id : Nat
  key : String
  is_active : Bool
deriving DecidableEq, Repr

/-- The SQL function `get_user_id_from_api_key(api_key)`:
`SELECT ak.user_id, ak.id FROM api_keys ak
 WHERE ak.key = api_key AND ak.is_active = true`. -/
def get_user_id_from_api_key (keys : List ApiKey) (api_key : String) :
    List (Nat × Nat) :=
  (keys.filter fun ak => decide (ak.key = api_key) && ak.is_active).map
    fun ak => (ak.user_id, ak.id)

/-- The parsed JSON request body (source interface `FeedbackPayload`);
absent fields read as `undefined`. -/
structure FeedbackPayload where
  userId : JSVal := .undefined
  type : JSVal := .undefined
  message : JSVal := .undefined
  metadata : JSVal := .undefined
deriving DecidableEq, Repr

/-- An incoming HTTP request: method, the `Authorization` header
(`none` when absent), and the result of `req.json()` (`none` when the body
does not parse and the call throws). -/
structure Req where
  method : String
  authHeader : Option String
  body : Option FeedbackPayload
deriving DecidableEq, Repr

/-- The JSON body of a response: empty (preflight), an `{ error: msg }`
object, or the `{ success: true, feedback: { id, type, message, created_at } }`
object — the success constructor carries exactly the four echoed fields. -/
inductive RespBody where
  | empty
  | err (msg : String)
  | success (id : Nat) (type : String) (message : String) (created_at : Nat)
deriving DecidableEq, Repr

/-- An HTTP response: status, whether the permissive CORS headers are set,
whether `Content-Type: application/json` is set, and the body. -/
structure Resp where
  status : Nat
  cors : Bool
  json : Bool
  body : RespBody
deriving DecidableEq, Repr

/-- A JSON error response with the CORS headers, as built throughout the
handler. -/
def errorResponse (status : Nat) (msg : String) : Resp :=
  { status := status, cors := true, json := true, body := .err msg }

/-- The environment of one invocation: the `api_keys` table, whether the
key-lookup RPC errors, whether the feedback insert succeeds, and the
store-generated id and timestamp of the inserted row. -/
structure Env where
  keys : List ApiKey
  rpcError : Bool
  insertOk : Bool
  newId : Nat
  now : Nat
deriving DecidableEq, Repr

/-- One row of the `feedbacks` table. -/
structure Feedback where
  id : Nat
  api_key_id : Nat
  user_id : Nat
  external_user_id : JSVal
  type : String
  message : String
  metadata : JSVal
  created_at : Nat
deriving DecidableEq, Repr

/-- The `validTypes` constant of the source: `bug`, `suggestion`,
`praise`, `other`. -/
def validTypes : List String := ["bug", "suggestion", "praise", "other"]

/-- The handler after authentication and body parsing: field validation,
insert, and response construction (lines 68–128 of the source). -/
def handleParsed (env : Env) (user_id api_key_id : Nat)
    (body : FeedbackPayload) : Resp × List Feedback :=
  if !truthy body.type || !truthy body.message then
    (errorResponse 400 "Missing required fields: type and message are required", [])
  else if !jsIncludes validTypes body.type then
    (errorResponse 400 ("Invalid type. Must be one of: " ++ String.intercalate ", " validTypes), [])
  else if lengthGT body.message 5000 then
    (errorResponse 400 "Message too long. Maximum 5000 characters.", [])
  else
    match jsTrim body.message, body.type with
    | some trimmed, .str t =>
      let row : Feedback :=
        { id := env.newId, api_key_id := api_key_id, user_id := user_id,
          external_user_id := jsOr body.userId .nullv,
          type := t, message := trimmed,
          metadata := jsOr body.metadata (.obj []),
          created_at := env.now }
      if env.insertOk then
        ({ status := 201, cors := true, json := true,
           body := .success env.newId t trimmed env.now }, [row])
      else (errorResponse 500 "Failed to save feedback", [])
    | _, _ => (errorResponse 500 "Internal server error", [])

/-- The handler after a well-formed `Bearer` header was found: credential
resolution, body parsing, then `handleParsed` (lines 39–128). -/
def afterAuth (env : Env) (header : String) (body : Option FeedbackPayload) :
    Resp × List Feedback :=
  if env.rpcError then (errorResponse 401 "Invalid API key", [])
  else
    match get_user_id_from_api_key env.keys (strDrop header 7) with
    | [] => (errorResponse 401 "Invalid API key", [])
    | (user_id, api_key_id) :: _ =>
      match body with
      | none => (errorResponse 500 "Internal server error", [])
      | some b => handleParsed env user_id api_key_id b

/-- The full `Deno.serve` handler.  Returns the response together with the
list of `feedbacks` rows created by the call. -/
def submit (env : Env) (req : Req) : Resp × List Feedback :=
  if req.method = "OPTIONS" then
    ({ status := 200, cors := true, json := false, body := .empty }, [])
  else if req.method ≠ "POST" then
    (errorResponse 405 "Method not allowed", [])
  else
    match req.authHeader with
    | none => (errorResponse 401 "Missing or invalid API key", [])
    | some h =>
      if !jsStartsWith h "Bearer " then
        (errorResponse 401 "Missing or invalid API key", [])
      else afterAuth env h req.body

/-- Step 1 of `regenerateKey` in `Settings.tsx`: the update call that
clears the active flag of the row whose id is the displayed key. -/
def deactivateKey (keys : List ApiKey) (keyId : Nat) : List ApiKey :=
  keys.map fun ak => if ak.id = keyId then { ak with is_active := false } else ak

/-- `regenerateKey` in `Settings.tsx`: deactivate the currently displayed
key, then insert a fresh key row (`is_active` defaults to `true` in the
table).  The two store calls are independent; `insertFails` models a
failure of the second call, after which the source only shows an error
toast — the deactivation is not compensated. -/
def regenerateKey (keys : List ApiKey) (currentKeyId : Nat)
    (insertFails : Bool) (newKey : ApiKey) : List ApiKey :=
  let afterDeactivate := deactivateKey keys currentKeyId
  if insertFails then afterDeactivate else afterDeactivate ++ [newKey]

/-- The active keys a tenant holds. -/
def activeKeysFor (keys : List ApiKey) (tenant : Nat) : List ApiKey :=
  keys.filter fun ak => decide (ak.user_id = tenant) && ak.is_active

/-- Whether the `Authorization` header is present and uses the
`Bearer <token>` scheme. -/
def authSchemeOk : Option String → Bool
  | none => false
  | some h => jsStartsWith h "Bearer "

/-- A message of 5001 characters: one leading space, then 5000 letters.
Its trimmed form has length exactly 5000. -/
def longMsg : String := ⟨' ' :: List.replicate 5000 'a'⟩

/-- A store holding one active key `k1` for tenant 10, with a working
insert that assigns id 7 and timestamp 1000. -/
def envA : Env :=
  { keys := [{ id := 1, user_id := 10, key := "k1", is_active := true }],
    rpcError := false, insertOk := true, newId := 7, now := 1000 }

/-- A fully valid submission carrying userId and metadata. -/
def reqValid : Req :=
  { method := "POST", authHeader := some "Bearer k1",
    body := some { userId := .str "u1", type := .str "bug",
                   message := .str " crashes on save ",
                   metadata := .obj [("page", "/dashboard")] } }

/-- An authenticated submission whose message is a single space. -/
def reqSpace : Req :=
  { method := "POST", authHeader := some "Bearer k1",
    body := some { type := .str "praise", message := .str " " } }

/-- An authenticated submission carrying `longMsg`. -/
def reqLong : Req :=
  { method := "POST", authHeader := some "Bearer k1",
    body := some { type := .str "bug", message := .str longMsg } }

/-- A POST with no Authorization header. -/
def reqNoAuth : Req :=
  { method := "POST", authHeader := none,
    body := some { type := .str "bug", message := .str "hi" } }

/-- A POST whose bearer token matches no stored key. -/
def reqUnknown : Req :=
  { method := "POST", authHeader := some "Bearer nope",
    body := some { type := .str "bug", message := .str "hi" } }

/-- An authenticated submission with `userId` present but empty. -/
def reqEmptyUser : Req :=
  { method := "POST", authHeader := some "Bearer k1",
    body := some { userId := .str "", type := .str "praise",
                   message := .str "nice" } }

/-- An authenticated submission whose message is a 5001-element array. -/
def reqArrMsg : Req :=
  { method := "POST", authHeader := some "Bearer k1",
    body := some { type := .str "bug", message := .arr 5001 } }

/-- An authenticated submission whose message is the number 42. -/
def reqNumMsg : Req :=
  { method := "POST", authHeader := some "Bearer k1",
    body := some { type := .str "bug", message := .num 42 } }

/-- A preflight request. -/
def reqOptions : Req := { method := "OPTIONS", authHeader := none, body := none }

/-- A GET request. -/
def reqGet : Req :=
  { method := "GET", authHeader := some "Bearer k1", body := none }

/-- A tenant (id 10) holding exactly one active key. -/
def tenantKeys : List ApiKey :=
  [{ id := 1, user_id := 10, key := "oldtok", is_active := true }]

/-- The fresh key a successful regeneration would insert. -/
def replacementKey : ApiKey :=
  { id := 2, user_id := 10, key := "newtok", is_active := true }

/-- Helper: an OPTIONS request short-circuits to the preflight response. -/
theorem submit_options (env : Env) (req : Req) (hm : req.method = "OPTIONS") :
    submit env req =
      ({ status := 200, cors := true, json := false, body := .empty }, []) := by
  obtain ⟨m, ah, b⟩ := req
  subst hm
  simp [submit]

/-- Helper: a method other than POST and OPTIONS yields 405. -/
theorem submit_bad_method (env : Env) (req : Req) (h1 : req.method ≠ "OPTIONS")
    (h2 : req.method ≠ "POST") :
    submit env req = (errorResponse 405 "Method not allowed", []) := by
  unfold submit
  rw [if_neg h1, if_pos h2]

/-- Helper: a POST without a well-formed Bearer header yields the first 401
response. -/
theorem submit_malformed (env : Env) (req : Req) (hm : req.method = "POST")
    (ha : authSchemeOk req.authHeader = false) :
    submit env req = (errorResponse 401 "Missing or invalid API key", []) := by
  obtain ⟨m, ah, b⟩ := req
  subst hm
  match ah, ha with
  | none, _ =>
    simp [submit]
  | some h, ha =>
    simp only [authSchemeOk] at ha
    simp [submit, ha]

/-- Helper: a POST with a Bearer header proceeds to `afterAuth` on the
header. -/
theorem submit_bearer (env : Env) (req : Req) (h : String)
    (hm : req.method = "POST") (hah : req.authHeader = some h)
    (hs : jsStartsWith h "Bearer " = true) :
    submit env req = afterAuth env h req.body := by
  obtain ⟨m, ah, b⟩ := req
  subst hm hah
  simp [submit, hs]

/-- Helper: when no active key matches the presented token, `afterAuth` is
the second 401 response, whether or not the lookup RPC itself errored. -/
theorem afterAuth_nokey (env : Env) (h : String) (b : Option FeedbackPayload)
    (hk : get_user_id_from_api_key env.keys (strDrop h 7) = []) :
    afterAuth env h b = (errorResponse 401 "Invalid API key", []) := by
  unfold afterAuth
  rw [hk]
  cases hr : env.rpcError <;> simp

/-- Helper: a resolved credential with a parsed body proceeds to
`handleParsed` with the ids of the first matching row. -/
theorem afterAuth_found (env : Env) (h : String) (b : FeedbackPayload)
    (uid kid : Nat) (rest : List (Nat × Nat)) (hrpc : env.rpcError = false)
    (hk : get_user_id_from_api_key env.keys (strDrop h 7) = (uid, kid) :: rest) :
    afterAuth env h (some b) = handleParsed env uid kid b := by
  unfold afterAuth
  rw [hrpc, hk]
  simp

/-- Helper: a string contained in `validTypes` is one of the four values. -/
theorem validTypes_cases (t : String) (h : validTypes.contains t = true) :
    t = "bug" ∨ t = "suggestion" ∨ t = "praise" ∨ t = "other" := by
  simp [validTypes, List.contains] at h
  tauto

/-- Helper: a valid type string is non-empty. -/
theorem validTypes_ne_empty (t : String) (h : validTypes.contains t = true) :
    t ≠ "" := by
  rcases validTypes_cases t h with h'|h'|h'|h' <;> subst h' <;> decide

/-- Helper: the interpolated invalid-type message as a literal. -/
theorem invalidTypeMsg_eq :
    "Invalid type. Must be one of: " ++ String.intercalate ", " validTypes =
      "Invalid type. Must be one of: bug, suggestion, praise, other" := by decide

/-- Helper: a falsy type or message hits the missing-fields branch. -/
theorem handleParsed_missing (env : Env) (uid kid : Nat) (body : FeedbackPayload)
    (h : truthy body.type = false ∨ truthy body.message = false) :
    handleParsed env uid kid body =
      (errorResponse 400 "Missing required fields: type and message are required", []) := by
  unfold handleParsed
  rcases h with h|h <;> simp [h]

/-- Helper: a truthy type outside `validTypes` hits the invalid-type
branch. -/
theorem handleParsed_bad_type (env : Env) (uid kid : Nat) (body : FeedbackPayload)
    (h1 : truthy body.type = true) (h2 : truthy body.message = true)
    (h3 : jsIncludes validTypes body.type = false) :
    handleParsed env uid kid body =
      (errorResponse 400 "Invalid type. Must be one of: bug, suggestion, praise, other", []) := by
  unfold handleParsed
  rw [← invalidTypeMsg_eq]
  simp [h1, h2, h3]

/-- Helper: a message whose length property exceeds 5000 hits the length
branch. -/
theorem handleParsed_too_long (env : Env) (uid kid : Nat) (body : FeedbackPayload)
    (h1 : truthy body.type = true) (h2 : truthy body.message = true)
    (h3 : jsIncludes validTypes body.type = true)
    (h4 : lengthGT body.message 5000 = true) :
    handleParsed env uid kid body =
      (errorResponse 400 "Message too long. Maximum 5000 characters.", []) := by
  unfold handleParsed
  simp [h1, h2, h3, h4]

/-- Helper: a valid string type and a non-empty string message of length at
most 5000 reach the insert and, when it succeeds, produce the 201 response
and exactly one row. -/
theorem handleParsed_success (env : Env) (uid kid : Nat) (u md : JSVal)
    (t m : String) (ht : validTypes.contains t = true)
    (hm : m ≠ "") (hlen : m.length ≤ 5000) (hins : env.insertOk = true) :
    handleParsed env uid kid
        { userId := u, type := .str t, message := .str m, metadata := md } =
      ({ status := 201, cors := true, json := true,
         body := .success env.newId t (strTrim m) env.now },
       [{ id := env.newId, api_key_id := kid, user_id := uid,
          external_user_id := jsOr u .nullv, type := t, message := strTrim m,
          metadata := jsOr md (.obj []), created_at := env.now }]) := by
  have h1 : truthy (JSVal.str t) = true := by
    simp [truthy, bne_iff_ne]
    exact validTypes_ne_empty t ht
  have h2 : truthy (JSVal.str m) = true := by
    simp [truthy, bne_iff_ne]
    exact hm
  have h4 : lengthGT (JSVal.str m) 5000 = false := by
    simp [lengthGT, jsLength]
    omega
  have hmem : t ∈ validTypes := List.mem_of_elem_eq_true ht
  unfold handleParsed
  simp [h1, h2, jsIncludes, ht, h4, jsTrim, hins, hmem]

/-- Helper: a truthy non-string message with no excessive length reaches
the insert expression, where the trim call throws and the catch-all
produces the generic 500 with no row. -/
theorem handleParsed_trim_throws (env : Env) (uid kid : Nat)
    (body : FeedbackPayload)
    (h1 : truthy body.type = true) (h2 : truthy body.message = true)
    (h3 : jsIncludes validTypes body.type = true)
    (h4 : lengthGT body.message 5000 = false)
    (h5 : jsIsString body.message = false) :
    handleParsed env uid kid body =
      (errorResponse 500 "Internal server error", []) := by
  have htrim : jsTrim body.message = none := by
    cases hb : body.message <;> simp_all [jsIsString, jsTrim]
  unfold handleParsed
  simp [h1, h2, h3, h4, htrim]

/-- Helper: `handleParsed` yields one row exactly on the 201 path. -/
theorem handleParsed_frame (env : Env) (uid kid : Nat) (b : FeedbackPayload) :
    (handleParsed env uid kid b).2.length =
      if (handleParsed env uid kid b).1.status = 201 then 1 else 0 := by
  unfold handleParsed
  split
  · simp [errorResponse]
  · split
    · simp [errorResponse]
    · split
      · simp [errorResponse]
      · split
        · split
          · simp
          · simp [errorResponse]
        · simp [errorResponse]

/-- Helper: `afterAuth` yields one row exactly on the 201 path. -/
theorem afterAuth_frame (env : Env) (h : String) (b : Option FeedbackPayload) :
    (afterAuth env h b).2.length =
      if (afterAuth env h b).1.status = 201 then 1 else 0 := by
  unfold afterAuth
  split
  · simp [errorResponse]
  · split
    · simp [errorResponse]
    · cases b with
      | none => simp [errorResponse]
      | some bb => exact handleParsed_frame env _ _ bb

/-- Helper: membership characterization of credential resolution. -/
theorem resolve_mem (keys : List ApiKey) (tok : String) (p : Nat × Nat) :
    p ∈ get_user_id_from_api_key keys tok ↔
      ∃ k, k ∈ keys ∧ k.key = tok ∧ k.is_active = true ∧
        p = (k.user_id, k.id) := by
  simp only [get_user_id_from_api_key, List.mem_map, List.mem_filter,
    Bool.and_eq_true, decide_eq_true_eq]
  constructor
  · rintro ⟨k, ⟨hk, hkey, hact⟩, hp⟩
    exact ⟨k, hk, hkey, hact, hp.symm⟩
  · rintro ⟨k, hk, hkey, hact, hp⟩
    exact ⟨k, ⟨hk, hkey, hact⟩, hp.symm⟩

/-- Helper: `dropWhile` leaves a replicated list whose element fails the
predicate untouched. -/
theorem dropWhile_replicate (p : Char → Bool) (n : Nat) (c : Char)
    (h : p c = false) :
    List.dropWhile p (List.replicate n c) = List.replicate n c := by
  cases n with
  | zero => rfl
  | succ k =>
    rw [List.replicate_succ, List.dropWhile_cons, h]
    simp

/-- Helper: trimming `longMsg` removes exactly the leading space. -/
theorem strTrim_longMsg : strTrim longMsg = ⟨List.replicate 5000 'a'⟩ := by
  simp only [strTrim, longMsg, trimChars]
  rw [List.dropWhile_cons, if_pos (by decide)]
  rw [dropWhile_replicate _ _ _ (by decide), List.reverse_replicate,
    dropWhile_replicate _ _ _ (by decide), List.reverse_replicate]

/-- Helper: `longMsg` has untrimmed length 5001. -/
theorem longMsg_length : longMsg.length = 5001 := by
  rw [show longMsg.length = (' ' :: List.replicate 5000 'a').length from rfl,
    List.length_cons, List.length_replicate]

/-- Helper: `longMsg` is not the empty string. -/
theorem longMsg_ne_empty : longMsg ≠ "" := by
  intro hcon
  have hd := congrArg String.data hcon
  rw [show longMsg.data = ' ' :: List.replicate 5000 'a' from rfl,
    show String.data "" = [] from rfl] at hd
  exact List.cons_ne_nil _ _ hd

/-- Helper: `longMsg` is truthy. -/
theorem truthy_longMsg : truthy (JSVal.str longMsg) = true := by
  simp [truthy, bne_iff_ne]
  exact longMsg_ne_empty

/-- Helper: the untrimmed length of `longMsg` trips the length check. -/
theorem lengthGT_longMsg : lengthGT (JSVal.str longMsg) 5000 = true := by
  simp [lengthGT, jsLength, longMsg_length]

/-- C1 (counterexample): the payload with type `bug` and a message of one
leading space followed by 5000 letters is valid in the exact sense of the
claim — type in the enum, message non-empty and of length 5000 after
trimming — and the credential is active, yet `submit` answers 400 and
creates no row, because the length check runs on the untrimmed message. -/
theorem submit_trim_valid_payload_rejected :
    validTypes.contains "bug" = true ∧ strTrim longMsg ≠ "" ∧
      (strTrim longMsg).length ≤ 5000 ∧
      submit envA reqLong =
        (errorResponse 400 "Message too long. Maximum 5000 characters.", []) := by
  refine ⟨by decide, ?_, ?_, ?_⟩
  · rw [strTrim_longMsg]
    intro hcon
    have hd := congrArg String.data hcon
    rw [show (String.mk (List.replicate 5000 'a')).data
          = List.replicate 5000 'a' from rfl,
      show String.data "" = [] from rfl] at hd
    have hlen := congrArg List.length hd
    rw [List.length_replicate] at hlen
    simp at hlen
  · rw [strTrim_longMsg,
      show (String.mk (List.replicate 5000 'a')).length
        = (List.replicate 5000 'a').length from rfl, List.length_replicate]
  · rw [submit_bearer envA reqLong "Bearer k1" rfl rfl (by decide),
      show reqLong.body
        = some { type := .str "bug", message := .str longMsg } from rfl,
      afterAuth_found envA "Bearer k1" _ 10 1 [] rfl (by decide)]
    exact handleParsed_too_long envA 10 1 _ (by decide) truthy_longMsg
      (by decide) lengthGT_longMsg

/-- C1 (amended): for a request authenticated by an active key and a payload
whose type is one of the four enumerated values and whose message is a
non-empty string of untrimmed length at most 5000, `submit` creates exactly
one Feedback row whose tenant and API-key ids come from the resolved
credential and never from the body, with the message stored trimmed and
metadata defaulting to an empty mapping when absent, and returns 201 whose
body carries exactly the fields id, type, message and created_at. -/
theorem submit_valid_creates_feedback (env : Env) (req : Req) (h : String)
    (uid kid : Nat) (rest : List (Nat × Nat)) (u md : JSVal) (t m : String)
    (hm : req.method = "POST") (hah : req.authHeader = some h)
    (hs : jsStartsWith h "Bearer " = true)
    (hrpc : env.rpcError = false) (hins : env.insertOk = true)
    (hk : get_user_id_from_api_key env.keys (strDrop h 7) = (uid, kid) :: rest)
    (hbody : req.body = some { userId := u, type := .str t, message := .str m,
                               metadata := md })
    (ht : validTypes.contains t = true) (hmne : m ≠ "")
    (hlen : m.length ≤ 5000) :
    submit env req =
      ({ status := 201, cors := true, json := true,
         body := .success env.newId t (strTrim m) env.now },
       [{ id := env.newId, api_key_id := kid, user_id := uid,
          external_user_id := jsOr u .nullv, type := t, message := strTrim m,
          metadata := jsOr md (.obj []), created_at := env.now }]) := by
  rw [submit_bearer env req h hm hah hs, hbody,
    afterAuth_found env h _ uid kid rest hrpc hk]
  exact handleParsed_success env uid kid u md t m ht hmne hlen hins

/-- C1 (witness): a concrete valid submission against the one-key store. -/
theorem submit_valid_creates_feedback_witness :
    submit envA reqValid =
      ({ status := 201, cors := true, json := true,
         body := .success 7 "bug" "crashes on save" 1000 },
       [{ id := 7, api_key_id := 1, user_id := 10,
          external_user_id := .str "u1", type := "bug",
          message := "crashes on save",
          metadata := .obj [("page", "/dashboard")], created_at := 1000 }]) := by
  have h := submit_valid_creates_feedback envA reqValid "Bearer k1" 10 1 []
    (.str "u1") (.obj [("page", "/dashboard")]) "bug" " crashes on save "
    rfl rfl (by decide) rfl rfl (by decide) rfl (by decide) (by decide)
    (by decide)
  rw [h]
  decide

/-- C2 (counterexample): with a valid credential and type, the payload whose
message is a single space is empty after trimming, so the claim demands 400;
the code accepts it with 201 and stores the empty trimmed message. -/
theorem whitespace_message_accepted :
    strTrim " " = "" ∧
      submit envA reqSpace =
        ({ status := 201, cors := true, json := true,
           body := .success 7 "praise" "" 1000 },
         [{ id := 7, api_key_id := 1, user_id := 10, external_user_id := .nullv,
            type := "praise", message := "", metadata := .obj [],
            created_at := 1000 }]) := by decide

/-- C2 (amended): the message is validated on its untrimmed value: an empty
string fails the missing-field check with 400; a non-empty string of
untrimmed length at most 5000 (including exactly 5000) succeeds with 201
and is stored trimmed; an untrimmed length above 5000 gets 400.  In
particular a whitespace-only message passes validation. -/
theorem message_validated_untrimmed (env : Env) (req : Req) (h : String)
    (uid kid : Nat) (rest : List (Nat × Nat)) (u md : JSVal) (t m : String)
    (hm : req.method = "POST") (hah : req.authHeader = some h)
    (hs : jsStartsWith h "Bearer " = true) (hrpc : env.rpcError = false)
    (hk : get_user_id_from_api_key env.keys (strDrop h 7) = (uid, kid) :: rest)
    (hbody : req.body = some { userId := u, type := .str t, message := .str m,
                               metadata := md })
    (ht : validTypes.contains t = true) :
    ((m = "" →
        submit env req =
          (errorResponse 400 "Missing required fields: type and message are required", [])) ∧
     (m ≠ "" → m.length ≤ 5000 → env.insertOk = true →
        submit env req =
          ({ status := 201, cors := true, json := true,
             body := .success env.newId t (strTrim m) env.now },
           [{ id := env.newId, api_key_id := kid, user_id := uid,
              external_user_id := jsOr u .nullv, type := t,
              message := strTrim m, metadata := jsOr md (.obj []),
              created_at := env.now }])) ∧
     (5000 < m.length →
        submit env req =
          (errorResponse 400 "Message too long. Maximum 5000 characters.", []))) := by
  refine ⟨?_, ?_, ?_⟩
  · intro hme
    subst hme
    rw [submit_bearer env req h hm hah hs, hbody,
      afterAuth_found env h _ uid kid rest hrpc hk]
    exact handleParsed_missing env uid kid
      { userId := u, type := .str t, message := .str "", metadata := md }
      (Or.inr rfl)
  · intro hmne hlen hins
    rw [submit_bearer env req h hm hah hs, hbody,
      afterAuth_found env h _ uid kid rest hrpc hk]
    exact handleParsed_success env uid kid u md t m ht hmne hlen hins
  · intro hgt
    have hmne : m ≠ "" := by
      intro e
      subst e
      rw [show ("" : String).length = 0 from rfl] at hgt
      omega
    rw [submit_bearer env req h hm hah hs, hbody,
      afterAuth_found env h _ uid kid rest hrpc hk]
    refine handleParsed_too_long env uid kid _ ?_ ?_ ?_ ?_
    · simp [truthy, bne_iff_ne]
      exact validTypes_ne_empty t ht
    · simp [truthy, bne_iff_ne]
      exact hmne
    · simp [jsIncludes]
      exact List.mem_of_elem_eq_true ht
    · simp [lengthGT, jsLength]
      exact hgt

/-- C2 (witness): a concrete accepted run of the untrimmed validation. -/
theorem message_validated_untrimmed_witness :
    submit envA { method := "POST", authHeader := some "Bearer k1",
                  body := some { type := .str "other", message := .str "ok" } } =
      ({ status := 201, cors := true, json := true,
         body := .success 7 "other" (strTrim "ok") 1000 },
       [{ id := 7, api_key_id := 1, user_id := 10, external_user_id := .nullv,
          type := "other", message := strTrim "ok", metadata := .obj [],
          created_at := 1000 }]) :=
  (message_validated_untrimmed envA _ "Bearer k1" 10 1 [] .undefined .undefined
    "other" "ok" rfl rfl (by decide) rfl (by decide) rfl (by decide)).2.1
    (by decide) (by decide) rfl

/-- C3: a POST with a missing Authorization header or a non-Bearer scheme
gets 401 and creates no row; a POST whose bearer token resolves to no
active key (a deactivated key included) gets 401 and creates no row; and
credential resolution returns exactly the rows whose stored key equals the
token by exact string equality and whose active flag is set. -/
theorem unauthenticated_rejected :
    (∀ env req, req.method = "POST" → authSchemeOk req.authHeader = false →
       submit env req = (errorResponse 401 "Missing or invalid API key", [])) ∧
    (∀ env req h, req.method = "POST" → req.authHeader = some h →
       jsStartsWith h "Bearer " = true →
       get_user_id_from_api_key env.keys (strDrop h 7) = [] →
       submit env req = (errorResponse 401 "Invalid API key", [])) ∧
    (∀ keys tok p, p ∈ get_user_id_from_api_key keys tok ↔
       ∃ k, k ∈ keys ∧ k.key = tok ∧ k.is_active = true ∧
         p = (k.user_id, k.id)) := by
  refine ⟨submit_malformed, ?_, resolve_mem⟩
  intro env req h hm hah hs hk
  rw [submit_bearer env req h hm hah hs]
  exact afterAuth_nokey env h req.body hk

/-- C3 (witness): the missing-header and unknown-token cases against the
one-key store. -/
theorem unauthenticated_rejected_witness :
    submit envA reqNoAuth = (errorResponse 401 "Missing or invalid API key", []) ∧
    submit envA reqUnknown = (errorResponse 401 "Invalid API key", []) := by
  constructor
  · exact unauthenticated_rejected.1 envA reqNoAuth rfl (by decide)
  · exact unauthenticated_rejected.2.1 envA reqUnknown "Bearer nope" rfl rfl
      (by decide) (by decide)

/-- C4: evaluating `regenerateKey` at the failing input — a tenant whose
single active key is deactivated and whose subsequent insert fails — leaves
the tenant with zero active keys, and the old token no longer
authenticates; the source has no transaction and no compensating step, so
the state is permanent, contradicting the required "never zero
permanently". -/
theorem regenerate_insert_failure_zero_active :
    activeKeysFor tenantKeys 10 = tenantKeys ∧
    activeKeysFor (regenerateKey tenantKeys 1 true replacementKey) 10 = [] ∧
    get_user_id_from_api_key (regenerateKey tenantKeys 1 true replacementKey)
      "oldtok" = [] := by decide

/-- C5 (counterexample): a missing-header request and an unknown-token
request both get status 401 but observably different error bodies. -/
theorem unauth_error_bodies_differ :
    (submit envA reqNoAuth).1.status = (submit envA reqUnknown).1.status ∧
    (submit envA reqNoAuth).1.body ≠ (submit envA reqUnknown).1.body := by decide

/-- C5 (amended): malformed or missing credentials and unknown or inactive
tokens both produce status 401, so the status does not reveal the case; but
the error messages are the distinct strings "Missing or invalid API key"
and "Invalid API key", so the response body does reveal which case
occurred. -/
theorem unauth_status_indistinct_body_distinct (env : Env) (req : Req)
    (env' : Env) (req' : Req) (h' : String)
    (hm : req.method = "POST") (ha : authSchemeOk req.authHeader = false)
    (hm' : req'.method = "POST") (hah' : req'.authHeader = some h')
    (hs' : jsStartsWith h' "Bearer " = true)
    (hk' : get_user_id_from_api_key env'.keys (strDrop h' 7) = []) :
    (submit env req).1.status = 401 ∧ (submit env' req').1.status = 401 ∧
    (submit env req).1.body = .err "Missing or invalid API key" ∧
    (submit env' req').1.body = .err "Invalid API key" ∧
    (submit env req).1.body ≠ (submit env' req').1.body := by
  rw [submit_malformed env req hm ha, submit_bearer env' req' h' hm' hah' hs',
    afterAuth_nokey env' h' req'.body hk']
  exact ⟨rfl, rfl, rfl, rfl, by decide⟩

/-- C5 (witness): the amended statement at the two concrete requests. -/
theorem unauth_status_indistinct_witness :
    (submit envA reqNoAuth).1.status = 401 ∧
    (submit envA reqUnknown).1.status = 401 ∧
    (submit envA reqNoAuth).1.body ≠ (submit envA reqUnknown).1.body := by
  have h := unauth_status_indistinct_body_distinct envA reqNoAuth envA
    reqUnknown "Bearer nope" rfl (by decide) rfl rfl (by decide) (by decide)
  exact ⟨h.1, h.2.1, h.2.2.2.2⟩

/-- C6: for an authenticated request with a parsed body, the validation
rules run in a fixed order — required fields first, then membership of the
type in the four enumerated values by string equality (hence
case-sensitive), then message length — and the first failing rule
determines the 400 message. -/
theorem validation_order_first_failure (env : Env) (req : Req) (h : String)
    (uid kid : Nat) (rest : List (Nat × Nat)) (body : FeedbackPayload)
    (hm : req.method = "POST") (hah : req.authHeader = some h)
    (hs : jsStartsWith h "Bearer " = true) (hrpc : env.rpcError = false)
    (hk : get_user_id_from_api_key env.keys (strDrop h 7) = (uid, kid) :: rest)
    (hbody : req.body = some body) :
    ((truthy body.type = false ∨ truthy body.message = false →
        submit env req =
          (errorResponse 400 "Missing required fields: type and message are required", [])) ∧
     (truthy body.type = true → truthy body.message = true →
        jsIncludes validTypes body.type = false →
        submit env req =
          (errorResponse 400 "Invalid type. Must be one of: bug, suggestion, praise, other", [])) ∧
     (truthy body.type = true → truthy body.message = true →
        jsIncludes validTypes body.type = true →
        lengthGT body.message 5000 = true →
        submit env req =
          (errorResponse 400 "Message too long. Maximum 5000 characters.", []))) := by
  have hsub : submit env req = handleParsed env uid kid body := by
    rw [submit_bearer env req h hm hah hs, hbody,
      afterAuth_found env h _ uid kid rest hrpc hk]
  refine ⟨?_, ?_, ?_⟩
  · intro hmiss
    rw [hsub]
    exact handleParsed_missing env uid kid body hmiss
  · intro h1 h2 h3
    rw [hsub]
    exact handleParsed_bad_type env uid kid body h1 h2 h3
  · intro h1 h2 h3 h4
    rw [hsub]
    exact handleParsed_too_long env uid kid body h1 h2 h3 h4

/-- C6 (witness): a body with the case-mangled type `Bug` and a present
message fails the type rule with the type-specific 400 message. -/
theorem validation_order_witness :
    submit envA { method := "POST", authHeader := some "Bearer k1",
                  body := some { type := .str "Bug", message := .str "hi" } } =
      (errorResponse 400 "Invalid type. Must be one of: bug, suggestion, praise, other", []) :=
  (validation_order_first_failure envA _ "Bearer k1" 10 1 []
    { type := .str "Bug", message := .str "hi" }
    rfl rfl (by decide) rfl (by decide) rfl).2.1 (by decide) (by decide)
    (by decide)

/-- C7: each call to `submit` creates exactly one Feedback row when the
response status is 201, and zero rows on every other path (the 401, 400,
405 and 500 responses and the preflight). -/
theorem rows_created_iff_201 (env : Env) (req : Req) :
    (submit env req).2.length =
      if (submit env req).1.status = 201 then 1 else 0 := by
  obtain ⟨m, ah, b⟩ := req
  unfold submit
  split
  · simp
  · split
    · simp [errorResponse]
    · cases ah with
      | none => simp [errorResponse]
      | some h =>
        cases hj : jsStartsWith h "Bearer " with
        | false => simp [hj, errorResponse]
        | true =>
          simp only [hj, Bool.not_true, Bool.false_eq_true, if_false]
          exact afterAuth_frame env h b

/-- C8: an OPTIONS request gets the empty-bodied success-class preflight
response carrying the CORS headers, and the response is independent of the
credential and of the key store — no authentication is performed; any
method other than POST and OPTIONS gets 405. -/
theorem preflight_and_method_gate :
    (∀ env req, req.method = "OPTIONS" →
       submit env req =
         ({ status := 200, cors := true, json := false, body := .empty }, [])) ∧
    (∀ env env' req req', req.method = "OPTIONS" → req'.method = "OPTIONS" →
       submit env req = submit env' req') ∧
    (∀ env req, req.method ≠ "OPTIONS" → req.method ≠ "POST" →
       submit env req = (errorResponse 405 "Method not allowed", [])) := by
  refine ⟨submit_options, ?_, submit_bad_method⟩
  intro env env' req req' h1 h2
  rw [submit_options env req h1, submit_options env' req' h2]

/-- C8 (witness): a concrete preflight without a credential and a concrete
GET. -/
theorem preflight_and_method_gate_witness :
    submit envA reqOptions =
      ({ status := 200, cors := true, json := false, body := .empty }, []) ∧
    submit envA reqGet = (errorResponse 405 "Method not allowed", []) :=
  ⟨preflight_and_method_gate.1 envA reqOptions rfl,
   preflight_and_method_gate.2.2 envA reqGet (by decide) (by decide)⟩

/-- C9: an otherwise-valid submission whose userId is falsy — the empty
string, null, absent, zero or false — stores `external_user_id` as null
(`JSVal.nullv`), which is a different value from the empty string. -/
theorem falsy_user_id_stored_null (env : Env) (req : Req) (h : String)
    (uid kid : Nat) (rest : List (Nat × Nat)) (u md : JSVal) (t m : String)
    (hm : req.method = "POST") (hah : req.authHeader = some h)
    (hs : jsStartsWith h "Bearer " = true)
    (hrpc : env.rpcError = false) (hins : env.insertOk = true)
    (hk : get_user_id_from_api_key env.keys (strDrop h 7) = (uid, kid) :: rest)
    (hbody : req.body = some { userId := u, type := .str t, message := .str m,
                               metadata := md })
    (ht : validTypes.contains t = true) (hmne : m ≠ "")
    (hlen : m.length ≤ 5000) (hfalsy : truthy u = false) :
    (submit env req).2.map (fun r => r.external_user_id) = [JSVal.nullv] ∧
    JSVal.nullv ≠ JSVal.str "" := by
  rw [submit_bearer env req h hm hah hs, hbody,
    afterAuth_found env h _ uid kid rest hrpc hk,
    handleParsed_success env uid kid u md t m ht hmne hlen hins]
  simp [jsOr, hfalsy]

/-- C9 (witness): submitting with the empty-string userId stores null. -/
theorem falsy_user_id_stored_null_witness :
    (submit envA reqEmptyUser).2.map (fun r => r.external_user_id) =
      [JSVal.nullv] :=
  (falsy_user_id_stored_null envA reqEmptyUser "Bearer k1" 10 1 [] (.str "")
    .undefined "praise" "nice" rfl rfl (by decide) rfl rfl (by decide) rfl
    (by decide) (by decide) (by decide) (by decide)).1

/-- C10 (counterexample): a JSON array of 5001 elements is a truthy
non-string message, but it carries a length, fails the length check and
gets 400 — not the claimed 500. -/
theorem long_array_message_gets_400 :
    truthy (JSVal.arr 5001) = true ∧ jsIsString (JSVal.arr 5001) = false ∧
    submit envA reqArrMsg =
      (errorResponse 400 "Message too long. Maximum 5000 characters.", []) := by
  decide

/-- C10 (amended): for an authenticated request with a valid type and a
truthy non-string message, when the value reports no length above 5000
(numbers, booleans and objects report none; arrays report their element
count) the missing-field and length checks pass, the trim call throws and
the generic handler returns 500 with no row created; a non-string message
whose length exceeds 5000 (a long array) instead fails the length check
with 400, again with no row created. -/
theorem nonstring_message_error_paths (env : Env) (req : Req) (h : String)
    (uid kid : Nat) (rest : List (Nat × Nat)) (body : FeedbackPayload)
    (hm : req.method = "POST") (hah : req.authHeader = some h)
    (hs : jsStartsWith h "Bearer " = true) (hrpc : env.rpcError = false)
    (hk : get_user_id_from_api_key env.keys (strDrop h 7) = (uid, kid) :: rest)
    (hbody : req.body = some body)
    (h1 : truthy body.type = true) (h3 : jsIncludes validTypes body.type = true)
    (h2 : truthy body.message = true) (h5 : jsIsString body.message = false) :
    ((lengthGT body.message 5000 = false →
        submit env req = (errorResponse 500 "Internal server error", [])) ∧
     (lengthGT body.message 5000 = true →
        submit env req =
          (errorResponse 400 "Message too long. Maximum 5000 characters.", []))) := by
  have hsub : submit env req = handleParsed env uid kid body := by
    rw [submit_bearer env req h hm hah hs, hbody,
      afterAuth_found env h _ uid kid rest hrpc hk]
  refine ⟨?_, ?_⟩
  · intro h4
    rw [hsub]
    exact handleParsed_trim_throws env uid kid body h1 h2 h3 h4 h5
  · intro h4
    rw [hsub]
    exact handleParsed_too_long env uid kid body h1 h2 h3 h4

/-- C10 (witness): a numeric message passes the field and length checks and
produces the generic 500 with no row. -/
theorem nonstring_message_error_paths_witness :
    submit envA reqNumMsg = (errorResponse 500 "Internal server error", []) :=
  (nonstring_message_error_paths envA reqNumMsg "Bearer k1" 10 1 []
    { type := .str "bug", message := .num 42 }
    rfl rfl (by decide) rfl (by decide) rfl (by decide) (by decide) (by decide)
    (by decide)).1 (by decide)
